import Mathlib

/-!
Shallow embedding of `src/ndn-traffic-push.cpp` (class `ndntg::NdnTrafficPush`
and its `main`). Machine integers are modelled as `Nat`/`Int`; `std::size_t`
arithmetic wraps modulo `2^64`. Durations keep the source's sentinel encoding
(`-1_ms` meaning "not configured"), in the source's units. Randomness is an
injected byte generator `Nat → Char`, matching the single random engine the
source draws from.
-/

namespace NdnTrafficPush

/-- `std::size_t` modulus (64-bit). -/
def USIZE : Nat := 2 ^ 64

/-- C++ unsigned subtraction `a - b` on `std::size_t` values: wraps modulo
`2^64` instead of saturating. Mirrors `*pattern.m_contentLength - content.size()`
at line 321 of the source. -/
def sizeSub (a b : Nat) : Nat :=
  (a % USIZE + USIZE - b % USIZE) % USIZE

/-- `std::optional<std::size_t> > 0` (mixed optional/value comparison):
true iff the optional is engaged and its value is positive. This is the guard
`pattern.m_contentLength > 0` at line 319. -/
def optGtZero : Option Nat → Bool
  | none => false
  | some n => decide (0 < n)

/-- `std::optional<uint64_t> == 0` (mixed optional/value comparison):
true iff the optional is engaged and its value equals 0. This is the guard
`m_nMaximumInterests == 0` at line 106. -/
def optEqZero : Option Nat → Bool
  | none => false
  | some n => decide (n = 0)

/-- One traffic pattern, mirroring the member fields and in-class initializers
of `NdnTrafficPush::DataTrafficConfiguration` (lines 232-240). Durations
keep the sentinel defaults of the source (`-1_ms`): `m_contentDelay` and
`m_generationInterval` in microseconds, `m_freshnessPeriod` in milliseconds.
The opaque `m_signingInfo` descriptor is irrelevant to every claim and is
omitted. -/
structure DataTrafficConfiguration where
  m_name : String := ""
  m_contentDelay : Int := -1000
  m_generationInterval : Int := -1000
  m_freshnessPeriod : Int := -1
  m_contentType : Option Nat := none
  m_contentLength : Option Nat := none
  m_content : String := ""
  m_nInterestsReceived : Nat := 0
  deriving DecidableEq, Repr

/-- `DataTrafficConfiguration::checkTrafficDetailCorrectness` (lines 225-229):
the source body is `return true;`. -/
def checkTrafficDetailCorrectness (_p : DataTrafficConfiguration) : Bool :=
  true

/-- `NdnTrafficPush::checkTrafficPatternCorrectness` (lines 260-265): the
source body is a `// TODO` comment followed by `return true;`. -/
def checkTrafficPatternCorrectness (_patterns : List DataTrafficConfiguration) : Bool :=
  true

/-- `NdnTrafficPush::getRandomByteString` (lines 267-280): draws `length`
bytes from the random engine and returns them as a string. The engine is the
injected `rand`. -/
def getRandomByteString (rand : Nat → Char) (length : Nat) : String :=
  String.mk ((List.range length).map rand)

/-- The synthetic header written at line 320:
`pattern.m_name + "/seq=" + std::to_string(pattern.m_nInterestsReceived) + "&%_"`. -/
def headerString (name : String) (seq : Nat) : String :=
  name ++ "/seq=" ++ toString seq ++ "&%_"

/-- Result of the content-construction block of `sendData`: the payload that
ends up in `data.setContent`, plus the length of the random filler requested
from `getRandomByteString` (`none` when the filler branch was not entered). -/
structure ContentResult where
  payload : String
  fillerLen : Option Nat
  deriving DecidableEq

/-- The content-construction block of `NdnTrafficPush::sendData`
(lines 318-325):

1. if `m_contentLength > 0`, build the header and append
   `getRandomByteString(*m_contentLength - content.size())` — `std::size_t`
   subtraction, hence `sizeSub`;
2. afterwards, if `m_content` is non-empty, overwrite `content` with it. -/
def generateContent (p : DataTrafficConfiguration) (rand : Nat → Char) : ContentResult :=
  let step1 : String × Option Nat :=
    if optGtZero p.m_contentLength then
      let header := headerString p.m_name p.m_nInterestsReceived
      let n := sizeSub (p.m_contentLength.getD 0) header.length
      (header ++ getRandomByteString rand n, some n)
    else
      ("", none)
  { payload := if p.m_content = "" then step1.1 else p.m_content
    fillerLen := step1.2 }

/-- Which point of `NdnTrafficPush::run` (lines 85-147) the invocation reaches
before the shared event loop would start. -/
inductive RunPhase
  | configLoadFailed
  | validationFailed
  | reportOnly
  | loopEntered
  deriving DecidableEq, Repr

/-- Observable outcome of the startup sequence of `NdnTrafficPush::run`:
the phase reached, the exit code when `run` returns before
`m_face.processEvents()` (`none` once the event loop is entered), how many
prefixes were registered, and how many statistics reports were printed at
this stage. -/
structure RunOutcome where
  phase : RunPhase
  exitCode : Option Nat
  registeredCount : Nat
  reportsEmitted : Nat
  deriving DecidableEq, Repr

/-- Startup sequence of `NdnTrafficPush::run` (lines 85-147):

* `readConfigurationFile` failed → return 2 (line 91);
* `checkTrafficPatternCorrectness()` false → return 2 (lines 94-97);
* `m_nMaximumInterests == 0` (engaged and zero) → `logStatistics()`,
  return 0 (lines 106-109);
* otherwise register every pattern's prefix (lines 124-130) and enter the
  event loop (line 139). -/
def run (configOk : Bool) (patterns : List DataTrafficConfiguration)
    (nMaximumInterests : Option Nat) : RunOutcome :=
  if !configOk then
    { phase := .configLoadFailed, exitCode := some 2, registeredCount := 0, reportsEmitted := 0 }
  else if !checkTrafficPatternCorrectness patterns then
    { phase := .validationFailed, exitCode := some 2, registeredCount := 0, reportsEmitted := 0 }
  else if optEqZero nMaximumInterests then
    { phase := .reportOnly, exitCode := some 0, registeredCount := 0, reportsEmitted := 1 }
  else
    { phase := .loopEntered, exitCode := none, registeredCount := patterns.length,
      reportsEmitted := 0 }

/-- Mutable shutdown/registration state of the `NdnTrafficPush` object:
`m_nRegistrationsFailed`, `m_hasError`, whether `m_face.shutdown()` and
`m_ioService.stop()` have been called, and how many times `logStatistics()`
has printed the report. -/
structure PushState where
  nRegistrationsFailed : Nat := 0
  hasError : Bool := false
  reportsEmitted : Nat := 0
  faceShutdown : Bool := false
  ioStopped : Bool := false
  deriving DecidableEq, Repr

/-- Initial object state: counters zero, no error, nothing shut down. -/
def initPushState : PushState := {}

/-- `NdnTrafficPush::logStatistics` (lines 243-258): prints the full report.
Modelled as incrementing the count of emitted reports. -/
def logStatistics (s : PushState) : PushState :=
  { s with reportsEmitted := s.reportsEmitted + 1 }

/-- `NdnTrafficPush::stop` (lines 393-399): unconditionally calls
`logStatistics()`, `m_face.shutdown()`, `m_ioService.stop()`. There is no
guard flag in the source. -/
def stop (s : PushState) : PushState :=
  { logStatistics s with faceShutdown := true, ioStopped := true }

/-- `NdnTrafficPush::onRegisterFailed` (lines 377-391) for a run with
`numPatterns = m_trafficPatterns.size()` patterns: log, increment
`m_nRegistrationsFailed`, and when the count equals the pattern count set
`m_hasError` and call `stop()`. -/
def onRegisterFailed (numPatterns : Nat) (s : PushState) : PushState :=
  let s1 := { s with nRegistrationsFailed := s.nRegistrationsFailed + 1 }
  if s1.nRegistrationsFailed = numPatterns then
    stop { s1 with hasError := true }
  else
    s1

/-- Publication counters shared by `sendData`: the global
`m_nInterestsReceived` and each pattern's `m_nInterestsReceived`
(indexed by pattern id). -/
structure EngineState where
  nInterestsReceived : Nat
  patternSeqs : List Nat
  deriving DecidableEq, Repr

/-- Counter state at startup: global counter 0, every pattern's sequence
number 0 (in-class initializers, lines 240 and 415). -/
def initEngineState (numPatterns : Nat) : EngineState :=
  { nInterestsReceived := 0, patternSeqs := List.replicate numPatterns 0 }

/-- The counter updates of one `sendData` firing for pattern `id`
(lines 329-330): `m_nInterestsReceived++; pattern.m_nInterestsReceived++;`. -/
def publishStep (s : EngineState) (id : Nat) : EngineState :=
  { nInterestsReceived := s.nInterestsReceived + 1
    patternSeqs := s.patternSeqs.set id (s.patternSeqs.getD id 0 + 1) }

/-- A run fragment: the per-pattern firings, in dispatch order (the event
loop is single-threaded, so firings are serialized). -/
def runSteps (s : EngineState) : List Nat → EngineState
  | [] => s
  | id :: rest => runSteps (publishStep s id) rest

/-- The statements of `NdnTrafficPush::sendData` (lines 306-375), in source
order. -/
inductive SendAction
  | buildData
  | setFreshness
  | setContentType
  | buildContent
  | setContent
  | sign
  | incrGlobal
  | incrPattern
  | logPreSend
  | delayPattern
  | delayGlobal
  | put
  | logPostSend
  | rearmTimer
  | checkCap
  deriving DecidableEq, Repr

/-- Statement order of `sendData`: build the Data object (line 310), copy
freshness and content type (312-316), build and set the content (318-325),
sign (327), increment both counters (329-330), log (332-338), apply the
per-pattern then the global delay (340-343), `m_face.put` (345), log
(347-358), re-arm the timer from its previous scheduled expiry (360-364),
then the global-cap check (366-371). -/
def sendDataTrace : List SendAction :=
  [.buildData, .setFreshness, .setContentType, .buildContent, .setContent,
   .sign, .incrGlobal, .incrPattern, .logPreSend, .delayPattern, .delayGlobal,
   .put, .logPostSend, .rearmTimer, .checkCap]

/-- Timer re-arm of `sendData` (line 360):
`timer.expires_at(timer.expires_at() + microseconds(m_generationInterval))` —
the new deadline is the previous *scheduled* deadline plus the interval,
independent of when the firing actually ran. -/
def nextExpiry (expiry interval : Nat) : Nat :=
  expiry + interval

/-- Scheduled deadline of the `n`-th firing (0-based) of one pattern's timer:
the timer is constructed at `start` with relative expiry one full
`generationInterval` (lines 289-290), and each firing re-arms via
`nextExpiry` (line 360). -/
def expiryAfter (start interval : Nat) : Nat → Nat
  | 0 => start + interval
  | n + 1 => nextExpiry (expiryAfter start interval n) interval

/-- Registration-failure states reached after `k` invocations of
`onRegisterFailed` in a run with `numPatterns` patterns, starting from the
freshly constructed object. -/
def failuresIter (numPatterns k : Nat) : PushState :=
  (onRegisterFailed numPatterns)^[k] initPushState

/-- A pattern block that sets nothing: empty `Name`, `GenerationInterval`
left at its `-1_ms` sentinel (i.e. absent). -/
def emptyPattern : DataTrafficConfiguration := {}

/-- A fixed random engine for concrete evaluations: every byte is `A`. -/
def fixedRand : Nat → Char := fun _ => 'A'

/-- Concrete pattern for the `std::size_t` underflow: `Name=/a`,
`ContentBytes=3`, no `Content`; at sequence number 0 the synthetic header
`"/a/seq=0&%_"` is 11 bytes long, more than the 3 configured. -/
def underflowPattern : DataTrafficConfiguration :=
  { m_name := "/a", m_contentLength := some 3 }

/-- Concrete pattern with both `Content` and `ContentBytes` set:
`Name=/a`, `ContentBytes=20`, `Content=X`. -/
def patternBoth : DataTrafficConfiguration :=
  { m_name := "/a", m_contentLength := some 20, m_content := "X" }

/-- A valid single-pattern configuration: `Name=/x`,
`GenerationInterval=1000`. -/
def onePattern : List DataTrafficConfiguration :=
  [{ m_name := "/x", m_generationInterval := 1000 }]

/-! ## Helper lemmas -/

theorem sizeSub_of_le (a b : Nat) (hba : b ≤ a) (ha : a < USIZE) :
    sizeSub a b = a - b := by
  have hU : USIZE = 18446744073709551616 := by norm_num [USIZE]
  unfold sizeSub
  rw [hU] at ha ⊢
  omega

theorem getRandomByteString_length (rand : Nat → Char) (n : Nat) :
    (getRandomByteString rand n).length = n := by
  simp [getRandomByteString, String.length]

theorem sum_set_getD (l : List Nat) : ∀ i, i < l.length →
    (l.set i (l.getD i 0 + 1)).sum = l.sum + 1 := by
  induction l with
  | nil => intro i h; simp at h
  | cons a t ih =>
    intro i h
    cases i with
    | zero => simp [List.set]; omega
    | succ j =>
      simp only [List.set, List.sum_cons, List.getD_cons_succ]
      rw [ih j (by simpa using h)]
      omega

theorem runSteps_inv : ∀ (ids : List Nat) (s : EngineState),
    (∀ id ∈ ids, id < s.patternSeqs.length) →
    s.nInterestsReceived = s.patternSeqs.sum →
    (runSteps s ids).nInterestsReceived = (runSteps s ids).patternSeqs.sum := by
  intro ids
  induction ids with
  | nil => intro s _ hinv; exact hinv
  | cons id rest ih =>
    intro s h hinv
    rw [runSteps]
    apply ih
    · intro j hj
      simpa [publishStep, List.length_set] using h j (List.mem_cons_of_mem _ hj)
    · have hid := h id (List.mem_cons_self id rest)
      show s.nInterestsReceived + 1 = (s.patternSeqs.set id (s.patternSeqs.getD id 0 + 1)).sum
      rw [sum_set_getD _ id hid, hinv]

theorem generateContent_filler (name : String) (L seq : Nat) (rand : Nat → Char)
    (hL : 0 < L) :
    generateContent
      { m_name := name, m_contentLength := some L, m_content := "",
        m_nInterestsReceived := seq } rand =
      { payload := headerString name seq ++
          getRandomByteString rand (sizeSub L (headerString name seq).length),
        fillerLen := some (sizeSub L (headerString name seq).length) } := by
  unfold generateContent
  simp [optGtZero, hL]

theorem onRegisterFailed_below (P j : Nat) (h : j + 1 ≠ P) :
    onRegisterFailed P { nRegistrationsFailed := j } =
      { nRegistrationsFailed := j + 1 } := by
  unfold onRegisterFailed
  simp [h]

theorem onRegisterFailed_last (P j : Nat) (h : j + 1 = P) :
    onRegisterFailed P { nRegistrationsFailed := j } =
      { nRegistrationsFailed := j + 1, hasError := true, reportsEmitted := 1,
        faceShutdown := true, ioStopped := true } := by
  unfold onRegisterFailed stop logStatistics
  simp [h]

theorem failuresIter_below (P : Nat) : ∀ k, k < P →
    failuresIter P k = { nRegistrationsFailed := k } := by
  intro k
  induction k with
  | zero => intro _; rfl
  | succ j ih =>
    intro h
    have hj : j < P := Nat.lt_of_succ_lt h
    unfold failuresIter at ih ⊢
    rw [Function.iterate_succ_apply', ih hj, onRegisterFailed_below P j (by omega)]

/-! ## Claim theorems -/

/-- C1 (counterexample): with a valid configuration and the global cap
absent (`--count` not given, `m_nMaximumInterests` disengaged), `run` does
NOT enter report-only mode: `std::optional<uint64_t> == 0` is false for a
disengaged optional, so the guard at line 106 falls through — the prefix is
registered, the event loop is entered, and no statistics report is printed
at that point. This refutes the claim that an absent `--count` selects
report-only mode. -/
theorem count_absent_not_reportOnly :
    (run true onePattern none).phase = RunPhase.loopEntered
    ∧ (run true onePattern none).registeredCount = 1
    ∧ (run true onePattern none).reportsEmitted = 0
    ∧ ¬ (run true onePattern none).phase = RunPhase.reportOnly := by
  refine ⟨rfl, rfl, rfl, by decide⟩

/-- C1 (amended): report-only mode is entered exactly when the `--count`
option is present with value 0; then the (zero) statistics report is
printed, exit code 0 is returned, no prefix is registered and the event
loop is not entered. When `--count` is absent the program registers every
pattern's prefix and enters the event loop. -/
theorem run_reportOnly_characterization (patterns : List DataTrafficConfiguration)
    (m : Option Nat) :
    ((run true patterns m).phase = RunPhase.reportOnly ↔ m = some 0)
    ∧ run true patterns (some 0) =
        { phase := .reportOnly, exitCode := some 0, registeredCount := 0,
          reportsEmitted := 1 }
    ∧ (run true patterns none).phase = RunPhase.loopEntered
    ∧ (run true patterns none).registeredCount = patterns.length := by
  refine ⟨?_, rfl, rfl, rfl⟩
  cases m with
  | none => simp [run, checkTrafficPatternCorrectness, optEqZero]
  | some n =>
    by_cases hn : n = 0
    · subst hn
      simp [run, checkTrafficPatternCorrectness, optEqZero]
    · simp [run, checkTrafficPatternCorrectness, optEqZero, hn]

/-- C2 (counterexample): `stop` has no guard flag — invoking it twice calls
`logStatistics` twice, so the statistics report is emitted twice, and the
second invocation is not a no-op on the report count. This refutes the
claimed idempotence of `stop`. -/
theorem stop_not_idempotent :
    (stop (stop initPushState)).reportsEmitted = 2
    ∧ stop (stop initPushState) ≠ stop initPushState := by
  refine ⟨rfl, by decide⟩

/-- C2 (amended): `stop` is not idempotent. Every invocation unconditionally
re-runs `logStatistics`, `m_face.shutdown()` and `m_ioService.stop()`:
after `n` invocations the statistics report has been emitted `n` more
times than before, so two invocations double-emit the report. -/
theorem stop_reports_accumulate (n : Nat) (s : PushState) :
    (stop^[n] s).reportsEmitted = s.reportsEmitted + n
    ∧ (0 < n → (stop^[n] s).faceShutdown = true ∧ (stop^[n] s).ioStopped = true) := by
  induction n with
  | zero => simp
  | succ k ih =>
    rw [Function.iterate_succ_apply']
    refine ⟨?_, fun _ => ⟨rfl, rfl⟩⟩
    show (stop^[k] s).reportsEmitted + 1 = s.reportsEmitted + (k + 1)
    rw [ih.1, Nat.add_assoc]

/-- C2 (amended, witness): two invocations of `stop` on the fresh object
emit the report twice. -/
theorem stop_reports_accumulate_witness :
    (stop^[2] initPushState).reportsEmitted = initPushState.reportsEmitted + 2 :=
  (stop_reports_accumulate 2 initPushState).1

/-- C3 (code evaluation at the failing input): the pattern-validation
functions are stubs — `checkTrafficDetailCorrectness` is `return true;` and
`checkTrafficPatternCorrectness` is a `// TODO` followed by `return true;` —
so a pattern with an empty name and no `GenerationInterval` passes
validation and `run` proceeds to register it and enter the event loop
instead of aborting with exit code 2. -/
theorem validation_stub_accepts_invalid_pattern :
    emptyPattern.m_name = ""
    ∧ emptyPattern.m_generationInterval < 0
    ∧ checkTrafficDetailCorrectness emptyPattern = true
    ∧ checkTrafficPatternCorrectness [emptyPattern] = true
    ∧ (run true [emptyPattern] (some 5)).phase = RunPhase.loopEntered
    ∧ ¬ (run true [emptyPattern] (some 5)).exitCode = some 2 := by
  refine ⟨rfl, by decide, rfl, rfl, rfl, by decide⟩

/-- C4 (code evaluation at the failing input): for a pattern with
`ContentBytes=3`, no `Content`, and the 11-byte header `"/a/seq=0&%_"`,
`sendData` performs the `std::size_t` subtraction
`*m_contentLength - content.size() = 3 - 11`, which wraps to `2^64 - 8`:
the code requests a `2^64 - 8`-byte random filler instead of signalling a
configuration error — no `InvalidPatternConfig` path exists in the source. -/
theorem content_underflow_requests_huge_filler :
    underflowPattern.m_contentLength.getD 0 < (headerString "/a" 0).length
    ∧ (generateContent underflowPattern fixedRand).fillerLen = some (2 ^ 64 - 8) := by
  refine ⟨by decide, by decide⟩

/-- C5: for every run shape (any pattern count, any serialized sequence of
in-range publish firings), the global `m_nInterestsReceived` equals the sum
of all patterns' sequence numbers, and in the statement order of `sendData`
the two counters are incremented adjacently (together), after `sign` and
before `m_face.put`. -/
theorem totalPublished_eq_sum (P : Nat) (ids : List Nat)
    (h : ∀ id ∈ ids, id < P) :
    (runSteps (initEngineState P) ids).nInterestsReceived
      = (runSteps (initEngineState P) ids).patternSeqs.sum
    ∧ sendDataTrace.indexOf .incrPattern = sendDataTrace.indexOf .incrGlobal + 1
    ∧ sendDataTrace.indexOf .sign < sendDataTrace.indexOf .incrGlobal
    ∧ sendDataTrace.indexOf .incrPattern < sendDataTrace.indexOf .put := by
  refine ⟨?_, by decide, by decide, by decide⟩
  apply runSteps_inv
  · intro id hid
    simpa [initEngineState] using h id hid
  · simp [initEngineState]

/-- C5 (witness): a concrete run with 2 patterns and four firings. -/
theorem totalPublished_eq_sum_witness :
    (runSteps (initEngineState 2) [0, 1, 1, 0]).nInterestsReceived
      = (runSteps (initEngineState 2) [0, 1, 1, 0]).patternSeqs.sum :=
  (totalPublished_eq_sum 2 [0, 1, 1, 0] (by decide)).1

/-- C6 (counterexample): for a pattern with `Content=X` and
`ContentBytes=20`, the emitted payload is indeed the literal `"X"`, but the
generated filler IS produced: the `m_contentLength > 0` branch at
lines 319-322 runs first, building the header and drawing a 9-byte random
filler, which the `m_content` override at lines 323-324 then discards. This
refutes the claim's conjunct that the generated filler is never produced. -/
theorem explicit_content_filler_generated :
    (generateContent patternBoth fixedRand).payload = "X"
    ∧ (generateContent patternBoth fixedRand).fillerLen = some 9
    ∧ ¬ (generateContent patternBoth fixedRand).fillerLen = none := by
  refine ⟨by decide, by decide, by decide⟩

/-- C6 (amended): for every pattern with a non-empty `explicitContent`,
every published object carries the literal `explicitContent` value as its
payload regardless of `contentLength`; however the generated filler is
still produced (computed, then discarded by the override) exactly when
`contentLength` is set and positive. -/
theorem explicit_content_overrides (p : DataTrafficConfiguration)
    (rand : Nat → Char) (h : ¬ p.m_content = "") :
    (generateContent p rand).payload = p.m_content
    ∧ ((generateContent p rand).fillerLen ≠ none
        ↔ optGtZero p.m_contentLength = true) := by
  unfold generateContent
  constructor
  · simp [h]
  · by_cases hc : optGtZero p.m_contentLength = true
    · simp [hc]
    · simp [hc]

/-- C6 (witness): the amended claim at the concrete both-set pattern. -/
theorem explicit_content_overrides_witness :
    (generateContent patternBoth fixedRand).payload = patternBoth.m_content :=
  (explicit_content_overrides patternBoth fixedRand (by decide)).1

/-- C7: for any number `N` of publish firings of one pattern with no
explicit content and configured content length `L` (a `std::size_t` value)
strictly greater than the header length at each firing, every emitted
payload has length exactly `L`: the header plus `L - header.length` random
filler bytes. The firing with sequence number `i` is the `i`-th firing,
since the sequence number starts at 0 and increments once per firing. -/
theorem payload_length_eq_contentLength (name : String) (L N : Nat)
    (rand : Nat → Char) (hL : L < USIZE)
    (hhdr : ∀ i, i < N → (headerString name i).length < L) :
    ∀ i, i < N →
      ((generateContent
          { m_name := name, m_contentLength := some L, m_content := "",
            m_nInterestsReceived := i } rand).payload).length = L := by
  intro i hi
  have hH := hhdr i hi
  have hpos : 0 < L := lt_of_le_of_lt (Nat.zero_le _) hH
  rw [generateContent_filler name L i rand hpos]
  show (headerString name i ++
      getRandomByteString rand (sizeSub L (headerString name i).length)).length = L
  rw [String.length_append, getRandomByteString_length,
    sizeSub_of_le _ _ (le_of_lt hH) hL]
  omega

/-- C7 (witness): pattern `/push` with `ContentBytes=30`, two firings — the
first firing's payload is exactly 30 bytes. -/
theorem payload_length_eq_contentLength_witness :
    ((generateContent
        { m_name := "/push", m_contentLength := some 30, m_content := "",
          m_nInterestsReceived := 0 } fixedRand).payload).length = 30 :=
  payload_length_eq_contentLength "/push" 30 2 fixedRand (by decide) (by decide)
    0 (by decide)

/-- C8: the pattern's timer is first armed a full `generationInterval` after
start (not immediately), each firing re-arms it to the previous scheduled
deadline plus the interval, and therefore the `n`-th scheduled deadline
equals the initial deadline plus `n` times the interval — no dependence on
per-firing processing or delay time enters the recurrence. -/
theorem nth_deadline_drift_free (start interval n : Nat) :
    expiryAfter start interval 0 = start + interval
    ∧ expiryAfter start interval (n + 1)
        = nextExpiry (expiryAfter start interval n) interval
    ∧ expiryAfter start interval n
        = expiryAfter start interval 0 + n * interval := by
  refine ⟨rfl, rfl, ?_⟩
  induction n with
  | zero => simp
  | succ k ih =>
    have hs : expiryAfter start interval (k + 1)
        = expiryAfter start interval k + interval := rfl
    rw [hs, ih]
    ring

/-- C9: in a run with `P` patterns, each registration failure increments
`m_nRegistrationsFailed`, and exactly when the count reaches `P` the error
flag is set and `stop` is invoked (report emitted, io stopped); with fewer
than `P` failures no error is flagged, no report is emitted and the run is
not halted. -/
theorem registration_failure_threshold (P k : Nat) (hP : 0 < P) (hk : k ≤ P) :
    (failuresIter P k).nRegistrationsFailed = k
    ∧ ((failuresIter P k).hasError = true ↔ k = P)
    ∧ (failuresIter P k).reportsEmitted = (if k = P then 1 else 0)
    ∧ ((failuresIter P k).ioStopped = true ↔ k = P) := by
  rcases Nat.lt_or_ge k P with h | h
  · have hne : ¬ k = P := Nat.ne_of_lt h
    rw [failuresIter_below P k h]
    simp [hne]
  · have hkP : k = P := le_antisymm hk h
    subst hkP
    obtain ⟨q, rfl⟩ : ∃ q, k = q + 1 := ⟨k - 1, by omega⟩
    unfold failuresIter
    rw [Function.iterate_succ_apply',
      show (onRegisterFailed (q + 1))^[q] initPushState = failuresIter (q + 1) q
        from rfl,
      failuresIter_below (q + 1) q (Nat.lt_succ_self q),
      onRegisterFailed_last (q + 1) q rfl]
    simp

/-- C9 (witness): both patterns of a 2-pattern run fail to register. -/
theorem registration_failure_threshold_witness :
    (failuresIter 2 2).nRegistrationsFailed = 2 :=
  (registration_failure_threshold 2 2 (by decide) (by decide)).1

/-- C10: a pattern whose `ContentBytes` is explicitly 0 with empty `Content`
emits an empty payload on every firing: the guard `m_contentLength > 0`
treats the engaged value 0 exactly like a disengaged optional, so neither
the synthetic header nor any filler is built. -/
theorem contentLength_zero_empty_payload (name : String) (seq : Nat)
    (rand : Nat → Char) :
    generateContent
      { m_name := name, m_contentLength := some 0, m_content := "",
        m_nInterestsReceived := seq } rand = { payload := "", fillerLen := none }
    ∧ optGtZero (some 0) = optGtZero none := by
  refine ⟨?_, rfl⟩
  unfold generateContent
  simp [optGtZero]

end NdnTrafficPush
